import Mathlib

/-!
Verification of the MBTI scoring engine of the persona-nextjs repository.

The definitions below are a shallow embedding of the TypeScript source:

* `calculateResult` and `getAlternativeTypes` embed
  `src/lib/db/models/Assessment.ts` (the authoritative variant, dividing by
  the supplied `questionCounts` and using closeness threshold 20);
* `calculateResultV1` and its helper embed the superseded variant found in
  the unnamed source file `part_001` (hard-coded denominators 10 for E/I and
  20 for the remaining letters, closeness threshold 10);
* `createNewResult`, `preSaveScoresCheck` and `resultSchemaValidate` embed
  `src/lib/db/models/Result.ts` (the pre-save hook and the schema
  validators; mongoose's `create` runs schema validation and then the
  user-registered pre-save hook, and a throw aborts persistence, which we
  model with `Except`).

JavaScript numbers are modelled with exact rationals: the tallies and
question counts are natural numbers, `Math.round` on the non-negative finite
values arising here is `fun x => Int.floor (x + 1/2)`.  A zero denominator
(which in JavaScript yields `NaN`/`Infinity` scores) is outside the model;
theorems about percentage values therefore assume positive question counts.
-/

namespace Persona

/-- Tallies of the eight trait letters, `counts` in `calculateResult`. -/
structure Counts where
  E : Nat
  I : Nat
  S : Nat
  N : Nat
  T : Nat
  F : Nat
  J : Nat
  P : Nat
deriving Repr, DecidableEq

/-- Per-dimension question counts, the `questionCounts` parameter. -/
structure QuestionCounts where
  EI : Nat
  SN : Nat
  TF : Nat
  JP : Nat
deriving Repr, DecidableEq

/-- The eight trait percentages, the `scores` object of `calculateResult`. -/
structure Scores where
  extrovert : Int
  introvert : Int
  sensory : Int
  intuitive : Int
  thinking : Int
  feeling : Int
  judging : Int
  perceiving : Int
deriving Repr, DecidableEq

/-- Return value of `calculateResult`. -/
structure ScoringResult where
  scores : Scores
  personalityType : String
  alternativeType1 : Option String
  alternativeType2 : Option String
deriving Repr, DecidableEq

/-- JavaScript `Math.round` on finite inputs: `Math.round(x) = floor(x + 0.5)`
(half-ties go toward positive infinity). -/
def jsRound (x : ℚ) : ℤ := ⌊x + 1/2⌋

/-- One percentage entry of the `scores` object:
`Math.round((count / denominator) * 100)`. -/
def pct (count den : Nat) : ℤ := jsRound ((count : ℚ) / (den : ℚ) * 100)

/-- One step of the tally loop `answers.forEach(value => { if (value in counts)
counts[value]++ })`: increment the field keyed by `value`, ignore anything
else. -/
def bump (c : Counts) (value : String) : Counts :=
  if value = "E" then { c with E := c.E + 1 }
  else if value = "I" then { c with I := c.I + 1 }
  else if value = "S" then { c with S := c.S + 1 }
  else if value = "N" then { c with N := c.N + 1 }
  else if value = "T" then { c with T := c.T + 1 }
  else if value = "F" then { c with F := c.F + 1 }
  else if value = "J" then { c with J := c.J + 1 }
  else if value = "P" then { c with P := c.P + 1 }
  else c

/-- The single-pass tally over the answers array. -/
def tally (answers : List String) : Counts :=
  answers.foldl bump ⟨0, 0, 0, 0, 0, 0, 0, 0⟩

/-- The membership test `value in counts`: `value` is one of the eight keys of
the tally object. -/
def recognized (value : String) : Bool :=
  value == "E" || value == "I" || value == "S" || value == "N" ||
  value == "T" || value == "F" || value == "J" || value == "P"

/-- One entry of the `dimensions` table of `getAlternativeTypes`: the two
score accessors of the `pair`, the two `letters`, and the `index` into the
type code. -/
structure Dimension where
  trait1 : Scores → Int
  trait2 : Scores → Int
  letter1 : Char
  letter2 : Char
  index : Nat

/-- Dimension entry for extrovert/introvert. -/
def dimEI : Dimension := ⟨Scores.extrovert, Scores.introvert, 'E', 'I', 0⟩

/-- Dimension entry for sensory/intuitive. -/
def dimSN : Dimension := ⟨Scores.sensory, Scores.intuitive, 'S', 'N', 1⟩

/-- Dimension entry for thinking/feeling. -/
def dimTF : Dimension := ⟨Scores.thinking, Scores.feeling, 'T', 'F', 2⟩

/-- Dimension entry for judging/perceiving. -/
def dimJP : Dimension := ⟨Scores.judging, Scores.perceiving, 'J', 'P', 3⟩

/-- The `dimensions` table, in the fixed order EI, SN, TF, JP. -/
def dimensions : List Dimension := [dimEI, dimSN, dimTF, dimJP]

/-- Body of the `forEach` that flips one close dimension: split the primary
type into characters, find the letter of the pair that differs from the
current one, and rebuild the string with that position replaced.  The `none`
branch corresponds to the `if (alternateLetter)` guard failing. -/
def flipDim (primaryType : String) (d : Dimension) : Option String :=
  let typeArray := primaryType.toList
  let currentLetter := typeArray.getD d.index ' '
  match [d.letter1, d.letter2].find? (fun l => l != currentLetter) with
  | some alternateLetter => some (String.mk (typeArray.set d.index alternateLetter))
  | none => none

/-- `getAlternativeTypes`, parameterised by the `closeThreshold` constant (the
two source variants differ only in that constant): keep the dimensions whose
pair of scores differ by less than the threshold, take at most the first two,
and flip each one's letter in the primary type. -/
def getAlternativeTypesWith (closeThreshold : Int) (scores : Scores)
    (primaryType : String) : List String :=
  let closeDimensions := dimensions.filter fun dim =>
    |dim.trait1 scores - dim.trait2 scores| < closeThreshold
  (closeDimensions.take 2).filterMap (flipDim primaryType)

/-- `getAlternativeTypes` of `Assessment.ts`: `closeThreshold = 20`. -/
def getAlternativeTypes (scores : Scores) (primaryType : String) : List String :=
  getAlternativeTypesWith 20 scores primaryType

/-- `getAlternativeTypes` of the superseded variant in `part_001`:
`closeThreshold = 10`. -/
def getAlternativeTypesV1 (scores : Scores) (primaryType : String) : List String :=
  getAlternativeTypesWith 10 scores primaryType

/-- JavaScript `alternatives[i] || null`: an absent entry or an empty string
becomes `null`. -/
def orNull (o : Option String) : Option String :=
  match o with
  | none => none
  | some s => if s = "" then none else some s

/-- `Assessment.calculateResult` of `Assessment.ts`: tally the answers, divide
by the supplied per-dimension question counts, pick the `>=`-favoured letter
of each pair, and attach up to two alternative types. -/
def calculateResult (answers : List String) (questionCounts : QuestionCounts) :
    ScoringResult :=
  let counts := tally answers
  let scores : Scores :=
    { extrovert := pct counts.E questionCounts.EI
      introvert := pct counts.I questionCounts.EI
      sensory := pct counts.S questionCounts.SN
      intuitive := pct counts.N questionCounts.SN
      thinking := pct counts.T questionCounts.TF
      feeling := pct counts.F questionCounts.TF
      judging := pct counts.J questionCounts.JP
      perceiving := pct counts.P questionCounts.JP }
  let personalityType := String.mk
    [ if scores.extrovert ≥ scores.introvert then 'E' else 'I',
      if scores.sensory ≥ scores.intuitive then 'S' else 'N',
      if scores.thinking ≥ scores.feeling then 'T' else 'F',
      if scores.judging ≥ scores.perceiving then 'J' else 'P' ]
  let alternatives := getAlternativeTypes scores personalityType
  { scores := scores
    personalityType := personalityType
    alternativeType1 := orNull alternatives[0]?
    alternativeType2 := orNull alternatives[1]? }

/-- The superseded `calculateResult` of `part_001`: identical tally and type
selection, but the percentages use the hard-coded denominators 10 (E/I) and
20 (all remaining letters), the supplied `questionCounts` is unused, and the
closeness threshold is 10. -/
def calculateResultV1 (answers : List String) (_questionCounts : QuestionCounts) :
    ScoringResult :=
  let counts := tally answers
  let scores : Scores :=
    { extrovert := pct counts.E 10
      introvert := pct counts.I 10
      sensory := pct counts.S 20
      intuitive := pct counts.N 20
      thinking := pct counts.T 20
      feeling := pct counts.F 20
      judging := pct counts.J 20
      perceiving := pct counts.P 20 }
  let personalityType := String.mk
    [ if scores.extrovert ≥ scores.introvert then 'E' else 'I',
      if scores.sensory ≥ scores.intuitive then 'S' else 'N',
      if scores.thinking ≥ scores.feeling then 'T' else 'F',
      if scores.judging ≥ scores.perceiving then 'J' else 'P' ]
  let alternatives := getAlternativeTypesV1 scores personalityType
  { scores := scores
    personalityType := personalityType
    alternativeType1 := orNull alternatives[0]?
    alternativeType2 := orNull alternatives[1]? }

/-- Payload handed to `Result.createNewResult` (the `resultData` parameter;
`timeTaken` is irrelevant to the claims and omitted). -/
structure ResultData where
  answers : List String
  scores : Scores
  personalityType : String
  alternativeType1 : Option String
  alternativeType2 : Option String
deriving Repr, DecidableEq

/-- A persisted `Result` document. -/
structure ResultDoc where
  answers : List String
  scores : Scores
  personalityType : String
  alternativeType1 : Option String
  alternativeType2 : Option String
  isActive : Bool
deriving Repr, DecidableEq

/-- Failure modes of persisting a result: a mongoose schema-validation error,
or the throw from the pre-save hook (`Complementary scores must add up to
100`). -/
inductive SaveError where
  | validationFailed
  | complementaryScoresMustAddUpTo100
deriving Repr, DecidableEq

/-- The four complementary score pairs checked by the pre-save hook of
`Result.ts`. -/
def complementaryPairs (s : Scores) : List (Int × Int) :=
  [(s.extrovert, s.introvert), (s.sensory, s.intuitive),
   (s.thinking, s.feeling), (s.judging, s.perceiving)]

/-- The pre-save hook of `ResultSchema`: every complementary pair must sum to
100 up to the floating-point tolerance 0.01, otherwise it throws. -/
def preSaveScoresCheck (s : Scores) : Bool :=
  (complementaryPairs s).all fun p =>
    decide (|((p.1 : ℚ) + (p.2 : ℚ)) - 100| ≤ 1/100)

/-- The schema validators of `ResultSchema` relevant to an insert: `answers`
must be non-empty, every score lies in `[0, 100]` (`min: 0, max: 100`), and
`personalityType` must match `/^[A-Z]{4}$/`. -/
def resultSchemaValidate (rd : ResultData) : Bool :=
  decide (0 < rd.answers.length) &&
  ([rd.scores.extrovert, rd.scores.introvert, rd.scores.sensory,
    rd.scores.intuitive, rd.scores.thinking, rd.scores.feeling,
    rd.scores.judging, rd.scores.perceiving].all fun x =>
      decide (0 ≤ x ∧ x ≤ 100)) &&
  rd.personalityType.length == 4 &&
  rd.personalityType.toList.all fun c => 'A' ≤ c && c ≤ 'Z'

/-- `Result.createNewResult`: mongoose `create` first runs the schema
validators, then the user pre-save hook; a throw in either aborts the insert.
The `updateMany` that deactivates previous results touches other documents
only and does not affect the created one. -/
def createNewResult (rd : ResultData) : Except SaveError ResultDoc :=
  if resultSchemaValidate rd = false then .error .validationFailed
  else if preSaveScoresCheck rd.scores = false then
    .error .complementaryScoresMustAddUpTo100
  else .ok ⟨rd.answers, rd.scores, rd.personalityType,
            rd.alternativeType1, rd.alternativeType2, true⟩

/-- Whether a save attempt persisted a document. -/
def isPersisted (r : Except SaveError ResultDoc) : Bool :=
  match r with
  | .ok _ => true
  | .error _ => false

/-!
Specification-side definitions.  These follow the wording of the spec and of
the claims; the theorems below compare them with the embedded source
functions.
-/

/-- Round half away from zero, the rounding rule named by the spec. -/
def roundHalfAwayFromZero (x : ℚ) : ℤ :=
  if 0 ≤ x then ⌊x + 1/2⌋ else ⌈x - 1/2⌉

/-- Letter selection as the spec words it: the strictly higher percentage
wins, an exact tie falls to the dimension's fixed default (first) letter. -/
def selectLetter (pctX pctY : Int) (l1 l2 : Char) : Char :=
  if pctX > pctY then l1 else if pctY > pctX then l2 else l1

/-- The pair complement of a trait letter. -/
def complementLetter (c : Char) : Char :=
  if c = 'E' then 'I' else if c = 'I' then 'E'
  else if c = 'S' then 'N' else if c = 'N' then 'S'
  else if c = 'T' then 'F' else if c = 'F' then 'T'
  else if c = 'J' then 'P' else if c = 'P' then 'J' else c

/-- Flip the letter at position `idx` of the primary type to its pair
complement, as the spec describes one alternative type. -/
def flipDimSpec (primaryType : String) (idx : Nat) : String :=
  String.mk (primaryType.toList.set idx
    (complementLetter (primaryType.toList.getD idx ' ')))

/-- Alternative types as the spec describes them: collect, in the fixed
dimension order, the dimensions whose two percentages differ by strictly less
than the closeness threshold, keep at most the first two, and flip each one's
single letter in the primary type. -/
def altTypesSpec (threshold : Int) (s : Scores) (primaryType : String) :
    List String :=
  ((dimensions.filter fun dim =>
      |dim.trait1 s - dim.trait2 s| < threshold).take 2).map
    fun dim => flipDimSpec primaryType dim.index

/-- The eight trait letters. -/
def traitLetters : List Char := ['E', 'I', 'S', 'N', 'T', 'F', 'J', 'P']

/-- Number of positions at which two strings differ (compared positionally on
their common length). -/
def numDiff (a b : String) : Nat :=
  ((a.toList.zip b.toList).filter fun p => p.1 != p.2).length

/-- Occurrences of the letter `l` in the answers list, one element at a
time. -/
def countLetter (l : String) : List String → Nat
  | [] => 0
  | a :: as => (if a = l then 1 else 0) + countLetter l as

/-- Answer list with one `E` against seven `I` over an eight-question EI
dimension (and one answer per letter of the other dimensions), filling every
dimension's denominator exactly. -/
def exampleAnswers8 : List String :=
  ["E", "I", "I", "I", "I", "I", "I", "I", "S", "N", "T", "F", "J", "P"]

/-!
Helper lemmas about the tally and the rounding arithmetic.
-/

/-- The rational rounding of a percentage is a natural-number division:
`round(c/d*100) = (200c + d) / (2d)` for positive `d`. -/
theorem pct_eq (c d : ℕ) (hd : 0 < d) : pct c d = ((200 * c + d) / (2 * d) : ℕ) := by
  have h : (c : ℚ) / (d : ℚ) * 100 + 1/2 = ((200 * c + d : ℕ) : ℚ) / ((2 * d : ℕ) : ℚ) := by
    have hd' : (d : ℚ) ≠ 0 := Nat.cast_ne_zero.mpr hd.ne'
    push_cast
    field_simp
    ring
  rw [pct, jsRound, h, Rat.floor_natCast_div_natCast]
  exact (Int.natCast_div _ _).symm

/-- A zero tally yields a zero percentage, for any denominator. -/
theorem pct_zero (den : Nat) : pct 0 den = 0 := by
  rcases Nat.eq_zero_or_pos den with h | h
  · subst h
    norm_num [pct, jsRound]
  · rw [pct_eq 0 den h]
    have h2 : den / (2 * den) = 0 := Nat.div_eq_of_lt (by omega)
    norm_num [h2]

/-- One step of the tally loop, written field by field. -/
theorem bump_fields (c : Counts) (v : String) :
    bump c v =
      ⟨c.E + (if v = "E" then 1 else 0), c.I + (if v = "I" then 1 else 0),
       c.S + (if v = "S" then 1 else 0), c.N + (if v = "N" then 1 else 0),
       c.T + (if v = "T" then 1 else 0), c.F + (if v = "F" then 1 else 0),
       c.J + (if v = "J" then 1 else 0), c.P + (if v = "P" then 1 else 0)⟩ := by
  unfold bump
  split_ifs <;> simp_all

/-- The fold underlying `tally`, relative to an arbitrary accumulator. -/
theorem foldl_bump (answers : List String) (c : Counts) :
    answers.foldl bump c =
      ⟨c.E + countLetter "E" answers, c.I + countLetter "I" answers,
       c.S + countLetter "S" answers, c.N + countLetter "N" answers,
       c.T + countLetter "T" answers, c.F + countLetter "F" answers,
       c.J + countLetter "J" answers, c.P + countLetter "P" answers⟩ := by
  induction answers generalizing c with
  | nil => simp [countLetter]
  | cons a as ih =>
    rw [List.foldl_cons, ih, bump_fields]
    simp [countLetter, Nat.add_assoc]

/-- The single-pass tally counts each letter's occurrences. -/
theorem tally_count (answers : List String) :
    tally answers =
      ⟨countLetter "E" answers, countLetter "I" answers,
       countLetter "S" answers, countLetter "N" answers,
       countLetter "T" answers, countLetter "F" answers,
       countLetter "J" answers, countLetter "P" answers⟩ := by
  rw [tally, foldl_bump]
  simp

/-- On an empty answers list the engine returns the all-zero scores, the
all-defaults type `ESTJ`, and the two alternatives obtained by flipping the
first two dimensions. -/
theorem calculateResult_empty (qc : QuestionCounts) :
    calculateResult [] qc =
      ⟨⟨0, 0, 0, 0, 0, 0, 0, 0⟩, "ESTJ", some "ISTJ", some "ENTJ"⟩ := by
  simp [calculateResult, tally, pct_zero, getAlternativeTypes, getAlternativeTypesWith,
    dimensions, dimEI, dimSN, dimTF, dimJP, flipDim, orNull]

/-!
Claim C1.
-/

/-- C1 counterexample: the claim states that `calculateResult` fails with an
`InvalidInput` error when `answers` is empty.  The source has no error path
at all: on the empty answers list (with the repository's question counts
10/20/20/20) it returns a fully defined result — all-zero scores, primary
type `ESTJ`, and the alternatives `ISTJ` and `ENTJ` — instead of failing. -/
theorem calculateResult_empty_returns_result :
    calculateResult [] ⟨10, 20, 20, 20⟩ =
      ⟨⟨0, 0, 0, 0, 0, 0, 0, 0⟩, "ESTJ", some "ISTJ", some "ENTJ"⟩ :=
  calculateResult_empty _

/-- C1 (amended): `calculateResult` performs no input validation and never
fails; on an empty answers list with positive question counts it returns the
all-zero scores, primary type `ESTJ`, and alternatives `ISTJ` and `ENTJ`.
(A zero denominator is likewise unchecked; in JavaScript it silently yields
non-finite scores, not an error.) -/
theorem calculateResult_empty_never_fails (qc : QuestionCounts)
    (hEI : 0 < qc.EI) (hSN : 0 < qc.SN) (hTF : 0 < qc.TF) (hJP : 0 < qc.JP) :
    calculateResult [] qc =
      ⟨⟨0, 0, 0, 0, 0, 0, 0, 0⟩, "ESTJ", some "ISTJ", some "ENTJ"⟩ :=
  calculateResult_empty qc

/-- Witness for the amended C1 at the documented counts `{EI := 20, SN := 18,
TF := 16, JP := 16}`. -/
theorem calculateResult_empty_never_fails_witness :
    calculateResult [] ⟨20, 18, 16, 16⟩ =
      ⟨⟨0, 0, 0, 0, 0, 0, 0, 0⟩, "ESTJ", some "ISTJ", some "ENTJ"⟩ :=
  calculateResult_empty_never_fails ⟨20, 18, 16, 16⟩
    (by norm_num) (by norm_num) (by norm_num) (by norm_num)

/-!
Claim C7.
-/

/-- C7: the two scoring implementations diverge.  On the single answer `E`
with `questionCounts = {EI := 20, SN := 20, TF := 20, JP := 20}`, the
`Assessment.ts` variant scores extrovert as `round(1/20*100) = 5` while the
`part_001` variant (hard-coded denominator 10 for E/I, threshold 10) scores
it as `round(1/10*100) = 10`, so the two results differ. -/
theorem calculateResult_variants_diverge :
    calculateResult ["E"] ⟨20, 20, 20, 20⟩ ≠ calculateResultV1 ["E"] ⟨20, 20, 20, 20⟩ ∧
    (calculateResult ["E"] ⟨20, 20, 20, 20⟩).scores.extrovert = 5 ∧
    (calculateResultV1 ["E"] ⟨20, 20, 20, 20⟩).scores.extrovert = 10 := by
  refine ⟨?_, ?_, ?_⟩ <;>
    simp [calculateResult, calculateResultV1, tally, bump, pct_eq,
      getAlternativeTypes, getAlternativeTypesV1, getAlternativeTypesWith,
      dimensions, dimEI, dimSN, dimTF, dimJP, flipDim, orNull]

/-!
Claim C8.
-/

/-- C8: `calculateResult` is total — it is a plain function with no error
path — and on the empty answers list with positive question counts all eight
scores are `0` and the primary type is the all-defaults code `ESTJ`. -/
theorem calculateResult_empty_scores_type (qc : QuestionCounts)
    (hEI : 0 < qc.EI) (hSN : 0 < qc.SN) (hTF : 0 < qc.TF) (hJP : 0 < qc.JP) :
    (calculateResult [] qc).scores = ⟨0, 0, 0, 0, 0, 0, 0, 0⟩ ∧
    (calculateResult [] qc).personalityType = "ESTJ" := by
  rw [calculateResult_empty]
  exact ⟨rfl, rfl⟩

/-- Witness for C8 at the concrete counts 10/20/20/20. -/
theorem calculateResult_empty_scores_type_witness :
    (calculateResult [] ⟨10, 20, 20, 20⟩).scores = ⟨0, 0, 0, 0, 0, 0, 0, 0⟩ ∧
    (calculateResult [] ⟨10, 20, 20, 20⟩).personalityType = "ESTJ" :=
  calculateResult_empty_scores_type ⟨10, 20, 20, 20⟩
    (by norm_num) (by norm_num) (by norm_num) (by norm_num)

/-!
Claim C6.
-/

/-- An unrecognized answer string leaves the tally unchanged. -/
theorem bump_unrecognized (c : Counts) (v : String) (h : recognized v = false) :
    bump c v = c := by
  unfold recognized at h
  simp only [Bool.or_eq_false_iff, beq_eq_false_iff_ne, ne_eq] at h
  obtain ⟨⟨⟨⟨⟨⟨⟨h1, h2⟩, h3⟩, h4⟩, h5⟩, h6⟩, h7⟩, h8⟩ := h
  simp [bump, h1, h2, h3, h4, h5, h6, h7, h8]

/-- The tally only sees the recognized answers. -/
theorem foldl_bump_filter (answers : List String) (c : Counts) :
    (answers.filter recognized).foldl bump c = answers.foldl bump c := by
  induction answers generalizing c with
  | nil => rfl
  | cons a as ih =>
    by_cases h : recognized a
    · simp only [List.filter_cons, h, if_pos, List.foldl_cons]
      exact ih (bump c a)
    · simp only [List.filter_cons, Bool.not_eq_true] at *
      simp only [h, Bool.false_eq_true, if_neg, List.foldl_cons,
        bump_unrecognized c a h]
      exact ih c

/-- Filtering out the unrecognized answers does not change the tally. -/
theorem tally_filter (answers : List String) :
    tally (answers.filter recognized) = tally answers :=
  foldl_bump_filter answers _

/-- C6: any answer that is not one of the eight trait letters is excluded
from every tally — `calculateResult` returns exactly the same scores,
primary type and alternatives as on the list with the unrecognized elements
removed (and, being a total function, raises no error). -/
theorem calculateResult_ignores_unrecognized (answers : List String)
    (qc : QuestionCounts) :
    calculateResult answers qc = calculateResult (answers.filter recognized) qc := by
  simp only [calculateResult, tally_filter]

/-!
Claim C5.
-/

/-- The `>=`-ternary of the source agrees with the spec's selection rule:
strictly higher percentage wins, exact ties fall to the first letter. -/
theorem select_eq (x y : Int) (l1 l2 : Char) :
    (if x ≥ y then l1 else l2) = selectLetter x y l1 l2 := by
  unfold selectLetter
  split_ifs <;> first | rfl | omega

/-- C5: the primary type is the concatenation, in the fixed order EI, SN, TF,
JP, of the letter with the strictly higher percentage of each pair, the
dimension's first letter (E, S, T, J) on an exact tie — in particular at
50/50 the first letter is selected. -/
theorem personalityType_eq_selectLetter (answers : List String)
    (qc : QuestionCounts)
    (hEI : 0 < qc.EI) (hSN : 0 < qc.SN) (hTF : 0 < qc.TF) (hJP : 0 < qc.JP) :
    (calculateResult answers qc).personalityType =
      String.mk
        [selectLetter (calculateResult answers qc).scores.extrovert
           (calculateResult answers qc).scores.introvert 'E' 'I',
         selectLetter (calculateResult answers qc).scores.sensory
           (calculateResult answers qc).scores.intuitive 'S' 'N',
         selectLetter (calculateResult answers qc).scores.thinking
           (calculateResult answers qc).scores.feeling 'T' 'F',
         selectLetter (calculateResult answers qc).scores.judging
           (calculateResult answers qc).scores.perceiving 'J' 'P'] := by
  simp only [calculateResult, select_eq]

/-- Witness for C5: two E answers against one I answer over three EI
questions. -/
theorem personalityType_eq_selectLetter_witness :
    (calculateResult ["E", "E", "I"] ⟨3, 3, 3, 3⟩).personalityType =
      String.mk
        [selectLetter (calculateResult ["E", "E", "I"] ⟨3, 3, 3, 3⟩).scores.extrovert
           (calculateResult ["E", "E", "I"] ⟨3, 3, 3, 3⟩).scores.introvert 'E' 'I',
         selectLetter (calculateResult ["E", "E", "I"] ⟨3, 3, 3, 3⟩).scores.sensory
           (calculateResult ["E", "E", "I"] ⟨3, 3, 3, 3⟩).scores.intuitive 'S' 'N',
         selectLetter (calculateResult ["E", "E", "I"] ⟨3, 3, 3, 3⟩).scores.thinking
           (calculateResult ["E", "E", "I"] ⟨3, 3, 3, 3⟩).scores.feeling 'T' 'F',
         selectLetter (calculateResult ["E", "E", "I"] ⟨3, 3, 3, 3⟩).scores.judging
           (calculateResult ["E", "E", "I"] ⟨3, 3, 3, 3⟩).scores.perceiving 'J' 'P'] :=
  personalityType_eq_selectLetter ["E", "E", "I"] ⟨3, 3, 3, 3⟩
    (by norm_num) (by norm_num) (by norm_num) (by norm_num)

/-!
Claim C3.
-/

/-- On non-negative inputs the spec's round-half-away-from-zero coincides
with JavaScript `Math.round`. -/
theorem roundHAFZ_eq_jsRound (x : ℚ) (h : 0 ≤ x) :
    roundHalfAwayFromZero x = jsRound x := by
  rw [roundHalfAwayFromZero, if_pos h, jsRound]

/-- C3: every trait percentage returned by `calculateResult` equals
`round(count(letter) / dimensionCounts[dimension] * 100)`, with `count` the
single-pass tally and `round` rounding half away from zero (which agrees
with `Math.round` on these non-negative values). -/
theorem scores_eq_rounded_ratio (answers : List String) (qc : QuestionCounts)
    (hEI : 0 < qc.EI) (hSN : 0 < qc.SN) (hTF : 0 < qc.TF) (hJP : 0 < qc.JP) :
    (calculateResult answers qc).scores.extrovert =
      roundHalfAwayFromZero ((countLetter "E" answers : ℚ) / (qc.EI : ℚ) * 100) ∧
    (calculateResult answers qc).scores.introvert =
      roundHalfAwayFromZero ((countLetter "I" answers : ℚ) / (qc.EI : ℚ) * 100) ∧
    (calculateResult answers qc).scores.sensory =
      roundHalfAwayFromZero ((countLetter "S" answers : ℚ) / (qc.SN : ℚ) * 100) ∧
    (calculateResult answers qc).scores.intuitive =
      roundHalfAwayFromZero ((countLetter "N" answers : ℚ) / (qc.SN : ℚ) * 100) ∧
    (calculateResult answers qc).scores.thinking =
      roundHalfAwayFromZero ((countLetter "T" answers : ℚ) / (qc.TF : ℚ) * 100) ∧
    (calculateResult answers qc).scores.feeling =
      roundHalfAwayFromZero ((countLetter "F" answers : ℚ) / (qc.TF : ℚ) * 100) ∧
    (calculateResult answers qc).scores.judging =
      roundHalfAwayFromZero ((countLetter "J" answers : ℚ) / (qc.JP : ℚ) * 100) ∧
    (calculateResult answers qc).scores.perceiving =
      roundHalfAwayFromZero ((countLetter "P" answers : ℚ) / (qc.JP : ℚ) * 100) := by
  simp only [calculateResult, tally_count]
  refine ⟨?_, ?_, ?_, ?_, ?_, ?_, ?_, ?_⟩ <;>
    · rw [pct]
      exact (roundHAFZ_eq_jsRound _ (by positivity)).symm

/-- Witness for C3 on a small concrete run. -/
theorem scores_eq_rounded_ratio_witness :
    (calculateResult ["E", "I", "S"] ⟨2, 2, 2, 2⟩).scores.extrovert =
      roundHalfAwayFromZero ((countLetter "E" ["E", "I", "S"] : ℚ) / ((2 : ℕ) : ℚ) * 100) ∧
    (calculateResult ["E", "I", "S"] ⟨2, 2, 2, 2⟩).scores.introvert =
      roundHalfAwayFromZero ((countLetter "I" ["E", "I", "S"] : ℚ) / ((2 : ℕ) : ℚ) * 100) ∧
    (calculateResult ["E", "I", "S"] ⟨2, 2, 2, 2⟩).scores.sensory =
      roundHalfAwayFromZero ((countLetter "S" ["E", "I", "S"] : ℚ) / ((2 : ℕ) : ℚ) * 100) ∧
    (calculateResult ["E", "I", "S"] ⟨2, 2, 2, 2⟩).scores.intuitive =
      roundHalfAwayFromZero ((countLetter "N" ["E", "I", "S"] : ℚ) / ((2 : ℕ) : ℚ) * 100) ∧
    (calculateResult ["E", "I", "S"] ⟨2, 2, 2, 2⟩).scores.thinking =
      roundHalfAwayFromZero ((countLetter "T" ["E", "I", "S"] : ℚ) / ((2 : ℕ) : ℚ) * 100) ∧
    (calculateResult ["E", "I", "S"] ⟨2, 2, 2, 2⟩).scores.feeling =
      roundHalfAwayFromZero ((countLetter "F" ["E", "I", "S"] : ℚ) / ((2 : ℕ) : ℚ) * 100) ∧
    (calculateResult ["E", "I", "S"] ⟨2, 2, 2, 2⟩).scores.judging =
      roundHalfAwayFromZero ((countLetter "J" ["E", "I", "S"] : ℚ) / ((2 : ℕ) : ℚ) * 100) ∧
    (calculateResult ["E", "I", "S"] ⟨2, 2, 2, 2⟩).scores.perceiving =
      roundHalfAwayFromZero ((countLetter "P" ["E", "I", "S"] : ℚ) / ((2 : ℕ) : ℚ) * 100) :=
  scores_eq_rounded_ratio ["E", "I", "S"] ⟨2, 2, 2, 2⟩
    (by norm_num) (by norm_num) (by norm_num) (by norm_num)

/-!
Helper lemmas about the alternative-type computation, shared by the theorems
for claims C4 and C9.
-/

/-- A `filterMap` whose function always succeeds is a `map`. -/
theorem filterMap_congr_some {α β : Type} (f : α → Option β) (g : α → β)
    (l : List α) (h : ∀ x ∈ l, f x = some (g x)) : l.filterMap f = l.map g := by
  induction l with
  | nil => rfl
  | cons a as ih =>
    rw [List.filterMap_cons, h a (List.mem_cons_self a as), List.map_cons,
      ih fun x hx => h x (List.mem_cons_of_mem a hx)]

/-- On a well-formed four-letter type the source's `find?`-based flip of the
EI dimension is the spec's complement flip. -/
theorem flipDim_dimEI (c0 c1 c2 c3 : Char) (h : c0 = 'E' ∨ c0 = 'I') :
    flipDim (String.mk [c0, c1, c2, c3]) dimEI =
      some (flipDimSpec (String.mk [c0, c1, c2, c3]) 0) := by
  rcases h with h | h <;> subst h <;> rfl

/-- Flip of the SN dimension, as for `flipDim_dimEI`. -/
theorem flipDim_dimSN (c0 c1 c2 c3 : Char) (h : c1 = 'S' ∨ c1 = 'N') :
    flipDim (String.mk [c0, c1, c2, c3]) dimSN =
      some (flipDimSpec (String.mk [c0, c1, c2, c3]) 1) := by
  rcases h with h | h <;> subst h <;> rfl

/-- Flip of the TF dimension, as for `flipDim_dimEI`. -/
theorem flipDim_dimTF (c0 c1 c2 c3 : Char) (h : c2 = 'T' ∨ c2 = 'F') :
    flipDim (String.mk [c0, c1, c2, c3]) dimTF =
      some (flipDimSpec (String.mk [c0, c1, c2, c3]) 2) := by
  rcases h with h | h <;> subst h <;> rfl

/-- Flip of the JP dimension, as for `flipDim_dimEI`. -/
theorem flipDim_dimJP (c0 c1 c2 c3 : Char) (h : c3 = 'J' ∨ c3 = 'P') :
    flipDim (String.mk [c0, c1, c2, c3]) dimJP =
      some (flipDimSpec (String.mk [c0, c1, c2, c3]) 3) := by
  rcases h with h | h <;> subst h <;> rfl

/-- On a well-formed four-letter primary type the source's alternative-type
computation coincides with the spec's description, for any threshold. -/
theorem getAlternativeTypesWith_eq (t : Int) (s : Scores) (c0 c1 c2 c3 : Char)
    (h0 : c0 = 'E' ∨ c0 = 'I') (h1 : c1 = 'S' ∨ c1 = 'N')
    (h2 : c2 = 'T' ∨ c2 = 'F') (h3 : c3 = 'J' ∨ c3 = 'P') :
    getAlternativeTypesWith t s (String.mk [c0, c1, c2, c3]) =
      altTypesSpec t s (String.mk [c0, c1, c2, c3]) := by
  rw [getAlternativeTypesWith, altTypesSpec]
  apply filterMap_congr_some
  intro d hd
  have hd4 : d ∈ dimensions := List.mem_of_mem_filter (List.mem_of_mem_take hd)
  simp only [dimensions, List.mem_cons, List.not_mem_nil, or_false] at hd4
  rcases hd4 with rfl | rfl | rfl | rfl
  · exact flipDim_dimEI c0 c1 c2 c3 h0
  · exact flipDim_dimSN c0 c1 c2 c3 h1
  · exact flipDim_dimTF c0 c1 c2 c3 h2
  · exact flipDim_dimJP c0 c1 c2 c3 h3

/-- A flipped four-letter type is never the empty string. -/
theorem flipDimSpec_ne_empty (c0 c1 c2 c3 : Char) (idx : Nat) :
    flipDimSpec (String.mk [c0, c1, c2, c3]) idx ≠ "" := by
  intro h
  have h2 := congrArg (fun s => s.toList.length) h
  simp [flipDimSpec] at h2

/-- Every spec-side alternative type is a non-empty string. -/
theorem altTypesSpec_ne_empty (t : Int) (s : Scores) (c0 c1 c2 c3 : Char) :
    ∀ x ∈ altTypesSpec t s (String.mk [c0, c1, c2, c3]), x ≠ "" := by
  intro x hx
  rw [altTypesSpec] at hx
  obtain ⟨d, _, rfl⟩ := List.mem_map.mp hx
  exact flipDimSpec_ne_empty c0 c1 c2 c3 d.index

/-- `|| null` is the identity on entries of a list of non-empty strings. -/
theorem orNull_getElem (l : List String) (h : ∀ x ∈ l, x ≠ "") (n : Nat) :
    orNull l[n]? = l[n]? := by
  cases hx : l[n]? with
  | none => rfl
  | some s => simp [orNull, h s (List.getElem?_mem hx)]

/-- The two alternative fields of `calculateResult` are the first two entries
of the spec-side alternative list at threshold 20. -/
theorem calculateResult_alt (answers : List String) (qc : QuestionCounts) :
    (calculateResult answers qc).alternativeType1 =
      (altTypesSpec 20 (calculateResult answers qc).scores
        (calculateResult answers qc).personalityType)[0]? ∧
    (calculateResult answers qc).alternativeType2 =
      (altTypesSpec 20 (calculateResult answers qc).scores
        (calculateResult answers qc).personalityType)[1]? := by
  simp only [calculateResult, getAlternativeTypes]
  constructor <;>
  · rw [getAlternativeTypesWith_eq 20 _ _ _ _ _
      (by split_ifs <;> simp) (by split_ifs <;> simp)
      (by split_ifs <;> simp) (by split_ifs <;> simp)]
    apply orNull_getElem
    apply altTypesSpec_ne_empty

/-- The primary type is always a four-character string whose letters come, in
order, from the pairs EI, SN, TF, JP. -/
theorem personalityType_shape (answers : List String) (qc : QuestionCounts) :
    ∃ c0 c1 c2 c3,
      (calculateResult answers qc).personalityType = String.mk [c0, c1, c2, c3] ∧
      (c0 = 'E' ∨ c0 = 'I') ∧ (c1 = 'S' ∨ c1 = 'N') ∧
      (c2 = 'T' ∨ c2 = 'F') ∧ (c3 = 'J' ∨ c3 = 'P') := by
  simp only [calculateResult]
  refine ⟨_, _, _, _, rfl, ?_, ?_, ?_, ?_⟩ <;> (split_ifs <;> simp)

/-- Every spec-side alternative is four characters over the trait alphabet
and differs from the primary type in exactly one position. -/
theorem altTypesSpec_wellformed (t : Int) (s : Scores) (c0 c1 c2 c3 : Char)
    (h0 : c0 = 'E' ∨ c0 = 'I') (h1 : c1 = 'S' ∨ c1 = 'N')
    (h2 : c2 = 'T' ∨ c2 = 'F') (h3 : c3 = 'J' ∨ c3 = 'P') (a : String)
    (ha : a ∈ altTypesSpec t s (String.mk [c0, c1, c2, c3])) :
    a.length = 4 ∧ (∀ ch ∈ a.toList, ch ∈ traitLetters) ∧
    numDiff a (String.mk [c0, c1, c2, c3]) = 1 := by
  rw [altTypesSpec] at ha
  obtain ⟨d, hd, rfl⟩ := List.mem_map.mp ha
  have hd4 : d ∈ dimensions := List.mem_of_mem_filter (List.mem_of_mem_take hd)
  simp only [dimensions, List.mem_cons, List.not_mem_nil, or_false] at hd4
  rcases hd4 with rfl | rfl | rfl | rfl <;>
    rcases h0 with rfl | rfl <;> rcases h1 with rfl | rfl <;>
    rcases h2 with rfl | rfl <;> rcases h3 with rfl | rfl <;> decide

/-- In a list, a present second entry implies a present first entry. -/
theorem getElem?_zero_isSome {α : Type} (l : List α)
    (h : l[1]?.isSome = true) : l[0]?.isSome = true := by
  cases l <;> simp_all

/-!
Claim C4.
-/

/-- C4: the alternatives returned by `calculateResult` are exactly the spec's
list — the dimensions whose percentages differ by strictly less than the
closeness threshold 20, collected in the fixed order EI, SN, TF, JP, cut to
at most the first two, each flipping that single dimension's letter of the
primary type to its pair complement (never two flips in one alternative);
`alternativeType1`/`alternativeType2` are its first two entries. -/
theorem alternatives_eq_spec (answers : List String) (qc : QuestionCounts) :
    (calculateResult answers qc).alternativeType1 =
      (altTypesSpec 20 (calculateResult answers qc).scores
        (calculateResult answers qc).personalityType)[0]? ∧
    (calculateResult answers qc).alternativeType2 =
      (altTypesSpec 20 (calculateResult answers qc).scores
        (calculateResult answers qc).personalityType)[1]? :=
  calculateResult_alt answers qc

/-!
Claim C9.
-/

/-- C9: alternative slots fill in order — `alternativeType2` is present only
if `alternativeType1` is — and every present alternative is a four-character
string over the trait alphabet differing from the primary type in exactly
one position. -/
theorem alternatives_wellformed (answers : List String) (qc : QuestionCounts) :
    ((calculateResult answers qc).alternativeType2.isSome = true →
      (calculateResult answers qc).alternativeType1.isSome = true) ∧
    ∀ a : String,
      ((calculateResult answers qc).alternativeType1 = some a ∨
        (calculateResult answers qc).alternativeType2 = some a) →
      a.length = 4 ∧ (∀ ch ∈ a.toList, ch ∈ traitLetters) ∧
      numDiff a (calculateResult answers qc).personalityType = 1 := by
  obtain ⟨c0, c1, c2, c3, hP, h0, h1, h2, h3⟩ := personalityType_shape answers qc
  obtain ⟨ha1, ha2⟩ := calculateResult_alt answers qc
  rw [hP] at ha1 ha2
  constructor
  · intro hsome
    rw [ha1]
    rw [ha2] at hsome
    exact getElem?_zero_isSome _ hsome
  · intro a ha
    have hmem : a ∈ altTypesSpec 20 (calculateResult answers qc).scores
        (String.mk [c0, c1, c2, c3]) := by
      rcases ha with h | h
      · rw [ha1] at h
        exact List.getElem?_mem h
      · rw [ha2] at h
        exact List.getElem?_mem h
    rw [hP]
    exact altTypesSpec_wellformed 20 _ c0 c1 c2 c3 h0 h1 h2 h3 a hmem

/-- Witness for C9: at the empty input the first alternative is `ISTJ`, and
the theorem yields its well-formedness against the primary type. -/
theorem alternatives_wellformed_witness :
    ("ISTJ" : String).length = 4 ∧
    (∀ ch ∈ ("ISTJ" : String).toList, ch ∈ traitLetters) ∧
    numDiff "ISTJ" (calculateResult [] ⟨10, 20, 20, 20⟩).personalityType = 1 :=
  (alternatives_wellformed [] ⟨10, 20, 20, 20⟩).2 "ISTJ"
    (Or.inl (by rw [calculateResult_empty]))

/-!
Rounding arithmetic for the pair-sum analysis of claim C2.
-/

/-- Division form of the half-up rounding carry: dividing `200c + n` by `2n`
is the plain division `100c / n` plus a carry exactly when twice the
remainder reaches `n`. -/
theorem half_up_div (c n : ℕ) (hn : 0 < n) :
    (200 * c + n) / (2 * n) =
      (100 * c) / n + if n ≤ 2 * ((100 * c) % n) then 1 else 0 := by
  have hq := Nat.div_add_mod (100 * c) n
  set q := (100 * c) / n with hqdef
  set r := (100 * c) % n with hrdef
  have hr : r < n := Nat.mod_lt _ hn
  have h200 : 200 * c + n = (2 * n) * q + (2 * r + n) := by
    have h2 : (2 * n) * q = 2 * (n * q) := by ring
    omega
  rw [h200, Nat.mul_add_div (by omega)]
  by_cases hb : n ≤ 2 * r
  · have h1 : (2 * r + n) / (2 * n) = 1 := by
      apply Nat.div_eq_of_lt_le
      · omega
      · omega
    rw [h1, if_pos hb]
  · have h0 : (2 * r + n) / (2 * n) = 0 := Nat.div_eq_of_lt (by omega)
    rw [h0, if_neg hb]

/-- Natural-number core of the pair-sum analysis: when the two tallies fill
the denominator, the two rounded percentages sum to 100, or 101 exactly on a
half-boundary. -/
theorem pct_pair_nat (e i n : ℕ) (hn : 0 < n) (hei : e + i = n) :
    (200 * e + n) / (2 * n) + (200 * i + n) / (2 * n) =
      if 2 * ((100 * e) % n) = n then 101 else 100 := by
  rw [half_up_div e n hn, half_up_div i n hn]
  have hq := Nat.div_add_mod (100 * e) n
  set q := (100 * e) / n with hqdef
  set r := (100 * e) % n with hrdef
  have hr : r < n := Nat.mod_lt _ hn
  have hqle : q ≤ 100 := by
    have h1 : n * q ≤ n * 100 := by omega
    exact Nat.le_of_mul_le_mul_left h1 hn
  by_cases hr0 : r = 0
  · have hmul : n * (100 - q) + n * q = n * 100 := by
      rw [← Nat.mul_add]
      congr 1
      omega
    have hin : 100 * i = n * (100 - q) + 0 := by omega
    have hdiv : (100 * i) / n = 100 - q := by
      rw [hin, Nat.mul_add_div hn]
      simp
    have hmod : (100 * i) % n = 0 := by
      rw [hin, Nat.mul_add_mod]
      simp
    rw [hdiv, hmod, hr0]
    rw [if_neg (by omega : ¬ n ≤ 2 * 0), if_neg (by omega : ¬ 2 * 0 = n)]
    omega
  · have hq99 : q ≤ 99 := by
      by_contra hcon
      have h1 : n * 100 ≤ n * q := Nat.mul_le_mul_left n (by omega)
      omega
    have hmul99 : n * (99 - q) + n * q = n * 99 := by
      rw [← Nat.mul_add]
      congr 1
      omega
    have hin : 100 * i = n * (99 - q) + (n - r) := by omega
    have hdiv : (100 * i) / n = 99 - q := by
      rw [hin, Nat.mul_add_div hn, Nat.div_eq_of_lt (by omega)]
      omega
    have hmod : (100 * i) % n = n - r := by
      rw [hin, Nat.mul_add_mod, Nat.mod_eq_of_lt (by omega)]
    rw [hdiv, hmod]
    by_cases hc : 2 * r = n
    · rw [if_pos (show n ≤ 2 * r by omega), if_pos (show n ≤ 2 * (n - r) by omega),
        if_pos hc]
      omega
    · by_cases hlt : 2 * r < n
      · rw [if_neg (show ¬ n ≤ 2 * r by omega), if_pos (show n ≤ 2 * (n - r) by omega),
          if_neg hc]
        omega
      · rw [if_pos (show n ≤ 2 * r by omega), if_neg (show ¬ n ≤ 2 * (n - r) by omega),
          if_neg hc]
        omega

/-- A dimension's complementary percentage pair over exactly-filled tallies
sums to 100, or to 101 exactly on a rounding half-boundary. -/
theorem pct_pair (e i n : ℕ) (hn : 0 < n) (hei : e + i = n) :
    pct e n + pct i n = if 2 * ((100 * e) % n) = n then 101 else 100 := by
  rw [pct_eq e n hn, pct_eq i n hn, ← Nat.cast_add, pct_pair_nat e i n hn hei]
  by_cases hc : 2 * ((100 * e) % n) = n
  · rw [if_pos hc, if_pos hc]
    norm_num
  · rw [if_neg hc, if_neg hc]
    norm_num

/-- Concrete evaluation of the engine on `exampleAnswers8`: extrovert is
`round(1/8*100) = round(12.5) = 13` and introvert `round(87.5) = 88`. -/
theorem exampleAnswers8_result :
    calculateResult exampleAnswers8 ⟨8, 2, 2, 2⟩ =
      ⟨⟨13, 88, 50, 50, 50, 50, 50, 50⟩, "ISTJ", some "INTJ", some "ISFJ"⟩ := by
  simp [exampleAnswers8, calculateResult, tally, bump, pct_eq, getAlternativeTypes,
    getAlternativeTypesWith, dimensions, dimEI, dimSN, dimTF, dimJP, flipDim, orNull]

/-!
Claim C2.
-/

/-- C2 counterexample: on `exampleAnswers8` every answer is recognized and
every dimension's tally exactly fills its denominator in `⟨8, 2, 2, 2⟩`, yet
`extrovert + introvert = 13 + 88 = 101`, not 100: both `12.5` and `87.5`
round upward. -/
theorem pair_sum_counterexample :
    exampleAnswers8.all recognized = true ∧
    countLetter "E" exampleAnswers8 + countLetter "I" exampleAnswers8 = 8 ∧
    countLetter "S" exampleAnswers8 + countLetter "N" exampleAnswers8 = 2 ∧
    countLetter "T" exampleAnswers8 + countLetter "F" exampleAnswers8 = 2 ∧
    countLetter "J" exampleAnswers8 + countLetter "P" exampleAnswers8 = 2 ∧
    (calculateResult exampleAnswers8 ⟨8, 2, 2, 2⟩).scores.extrovert +
      (calculateResult exampleAnswers8 ⟨8, 2, 2, 2⟩).scores.introvert = 101 := by
  refine ⟨by decide, by decide, by decide, by decide, by decide, ?_⟩
  rw [exampleAnswers8_result]
  norm_num

/-- C2 (amended): when every answer is recognized and each dimension's two
tallies exactly fill its positive denominator, each complementary pair of
rounded percentages sums to 100 — except that it sums to 101 exactly when
the dimension's true percentage lies on a rounding half-boundary (twice the
remainder of `100·count` modulo the denominator equals the denominator). -/
theorem pair_sums_100_or_101 (answers : List String) (qc : QuestionCounts)
    (hrec : answers.all recognized = true)
    (hEI : countLetter "E" answers + countLetter "I" answers = qc.EI)
    (hSN : countLetter "S" answers + countLetter "N" answers = qc.SN)
    (hTF : countLetter "T" answers + countLetter "F" answers = qc.TF)
    (hJP : countLetter "J" answers + countLetter "P" answers = qc.JP)
    (hEIpos : 0 < qc.EI) (hSNpos : 0 < qc.SN)
    (hTFpos : 0 < qc.TF) (hJPpos : 0 < qc.JP) :
    ((calculateResult answers qc).scores.extrovert +
        (calculateResult answers qc).scores.introvert =
      if 2 * ((100 * countLetter "E" answers) % qc.EI) = qc.EI then 101 else 100) ∧
    ((calculateResult answers qc).scores.sensory +
        (calculateResult answers qc).scores.intuitive =
      if 2 * ((100 * countLetter "S" answers) % qc.SN) = qc.SN then 101 else 100) ∧
    ((calculateResult answers qc).scores.thinking +
        (calculateResult answers qc).scores.feeling =
      if 2 * ((100 * countLetter "T" answers) % qc.TF) = qc.TF then 101 else 100) ∧
    ((calculateResult answers qc).scores.judging +
        (calculateResult answers qc).scores.perceiving =
      if 2 * ((100 * countLetter "J" answers) % qc.JP) = qc.JP then 101 else 100) := by
  simp only [calculateResult, tally_count]
  exact ⟨pct_pair _ _ _ hEIpos hEI, pct_pair _ _ _ hSNpos hSN,
    pct_pair _ _ _ hTFpos hTF, pct_pair _ _ _ hJPpos hJP⟩

/-- Witness for the amended C2 on a one-answer-per-letter run, where every
pair sums to plain 100. -/
theorem pair_sums_100_or_101_witness :
    ((calculateResult ["E", "I", "S", "N", "T", "F", "J", "P"] ⟨2, 2, 2, 2⟩).scores.extrovert +
        (calculateResult ["E", "I", "S", "N", "T", "F", "J", "P"] ⟨2, 2, 2, 2⟩).scores.introvert =
      if 2 * ((100 * countLetter "E" ["E", "I", "S", "N", "T", "F", "J", "P"]) % 2) = 2
        then 101 else 100) ∧
    ((calculateResult ["E", "I", "S", "N", "T", "F", "J", "P"] ⟨2, 2, 2, 2⟩).scores.sensory +
        (calculateResult ["E", "I", "S", "N", "T", "F", "J", "P"] ⟨2, 2, 2, 2⟩).scores.intuitive =
      if 2 * ((100 * countLetter "S" ["E", "I", "S", "N", "T", "F", "J", "P"]) % 2) = 2
        then 101 else 100) ∧
    ((calculateResult ["E", "I", "S", "N", "T", "F", "J", "P"] ⟨2, 2, 2, 2⟩).scores.thinking +
        (calculateResult ["E", "I", "S", "N", "T", "F", "J", "P"] ⟨2, 2, 2, 2⟩).scores.feeling =
      if 2 * ((100 * countLetter "T" ["E", "I", "S", "N", "T", "F", "J", "P"]) % 2) = 2
        then 101 else 100) ∧
    ((calculateResult ["E", "I", "S", "N", "T", "F", "J", "P"] ⟨2, 2, 2, 2⟩).scores.judging +
        (calculateResult ["E", "I", "S", "N", "T", "F", "J", "P"] ⟨2, 2, 2, 2⟩).scores.perceiving =
      if 2 * ((100 * countLetter "J" ["E", "I", "S", "N", "T", "F", "J", "P"]) % 2) = 2
        then 101 else 100) :=
  pair_sums_100_or_101 ["E", "I", "S", "N", "T", "F", "J", "P"] ⟨2, 2, 2, 2⟩
    (by decide) (by decide) (by decide) (by decide) (by decide)
    (by norm_num) (by norm_num) (by norm_num) (by norm_num)

/-!
Claim C10.
-/

/-- An integer pair whose rational sum is within 0.01 of 100 sums to exactly
100. -/
theorem tol_int (a b : Int) (h : |((a : ℚ) + (b : ℚ)) - 100| ≤ 1/100) :
    a + b = 100 := by
  rw [abs_le] at h
  obtain ⟨h1, h2⟩ := h
  have hlt : ((a + b : Int) : ℚ) < 101 := by push_cast; linarith
  have hgt : (99 : ℚ) < ((a + b : Int) : ℚ) := by push_cast; linarith
  have hlt2 : a + b < 101 := by exact_mod_cast hlt
  have hgt2 : (99 : Int) < a + b := by exact_mod_cast hgt
  omega

/-- C10: a result persisted by `createNewResult` has all four complementary
score pairs summing to exactly 100 — the pre-save hook throws (so nothing is
persisted) whenever a pair is off by more than the 0.01 tolerance, which for
the engine's integer scores means any sum other than 100 — even though
`calculateResult` can produce scores that violate it: on `exampleAnswers8`
it yields `13 + 88 = 101` and persisting that result fails. -/
theorem createNewResult_pairs_100 (rd : ResultData)
    (h : isPersisted (createNewResult rd) = true) :
    (rd.scores.extrovert + rd.scores.introvert = 100 ∧
     rd.scores.sensory + rd.scores.intuitive = 100 ∧
     rd.scores.thinking + rd.scores.feeling = 100 ∧
     rd.scores.judging + rd.scores.perceiving = 100) ∧
    ((calculateResult exampleAnswers8 ⟨8, 2, 2, 2⟩).scores.extrovert +
       (calculateResult exampleAnswers8 ⟨8, 2, 2, 2⟩).scores.introvert = 101 ∧
     isPersisted (createNewResult
       ⟨exampleAnswers8, (calculateResult exampleAnswers8 ⟨8, 2, 2, 2⟩).scores,
        (calculateResult exampleAnswers8 ⟨8, 2, 2, 2⟩).personalityType,
        (calculateResult exampleAnswers8 ⟨8, 2, 2, 2⟩).alternativeType1,
        (calculateResult exampleAnswers8 ⟨8, 2, 2, 2⟩).alternativeType2⟩) = false) := by
  constructor
  · rw [createNewResult] at h
    by_cases hv : resultSchemaValidate rd = false
    · rw [if_pos hv] at h
      simp [isPersisted] at h
    · rw [if_neg hv] at h
      by_cases hp : preSaveScoresCheck rd.scores = false
      · rw [if_pos hp] at h
        simp [isPersisted] at h
      · have hchk : preSaveScoresCheck rd.scores = true := by
          cases hb : preSaveScoresCheck rd.scores
          · exact absurd hb hp
          · rfl
        simp only [preSaveScoresCheck, complementaryPairs, List.all_cons,
          List.all_nil, Bool.and_eq_true, decide_eq_true_eq] at hchk
        obtain ⟨hA, hB, hC, hD, _⟩ := hchk
        exact ⟨tol_int _ _ hA, tol_int _ _ hB, tol_int _ _ hC, tol_int _ _ hD⟩
  · rw [exampleAnswers8_result]
    constructor
    · norm_num
    · have hpre : preSaveScoresCheck (⟨13, 88, 50, 50, 50, 50, 50, 50⟩ : Scores) = false := by
        norm_num [preSaveScoresCheck, complementaryPairs]
      have hval : resultSchemaValidate
          ⟨exampleAnswers8, ⟨13, 88, 50, 50, 50, 50, 50, 50⟩, "ISTJ",
            some "INTJ", some "ISFJ"⟩ = true := by decide
      simp [createNewResult, hval, hpre, isPersisted]

/-- Witness for C10 on an even 50/50 result, which the hook accepts and
persists. -/
theorem createNewResult_pairs_100_witness :
    (((50 : ℤ) + 50 = 100 ∧ (50 : ℤ) + 50 = 100 ∧
      (50 : ℤ) + 50 = 100 ∧ (50 : ℤ) + 50 = 100) ∧
     ((calculateResult exampleAnswers8 ⟨8, 2, 2, 2⟩).scores.extrovert +
        (calculateResult exampleAnswers8 ⟨8, 2, 2, 2⟩).scores.introvert = 101 ∧
      isPersisted (createNewResult
        ⟨exampleAnswers8, (calculateResult exampleAnswers8 ⟨8, 2, 2, 2⟩).scores,
         (calculateResult exampleAnswers8 ⟨8, 2, 2, 2⟩).personalityType,
         (calculateResult exampleAnswers8 ⟨8, 2, 2, 2⟩).alternativeType1,
         (calculateResult exampleAnswers8 ⟨8, 2, 2, 2⟩).alternativeType2⟩) = false)) :=
  createNewResult_pairs_100
    ⟨["E"], ⟨50, 50, 50, 50, 50, 50, 50, 50⟩, "ESTJ", none, none⟩
    (by
      have hval : resultSchemaValidate
          ⟨["E"], ⟨50, 50, 50, 50, 50, 50, 50, 50⟩, "ESTJ", none, none⟩ = true := by
        decide
      have hpre : preSaveScoresCheck ⟨50, 50, 50, 50, 50, 50, 50, 50⟩ = true := by
        norm_num [preSaveScoresCheck, complementaryPairs]
      simp [createNewResult, hval, hpre, isPersisted])

end Persona
